import Mathlib

/-!
Shallow embedding of the decoding and aggregation engine of `src/app.py`
(the `parse_log` loop and its helpers).  Python numeric values are modelled
as exact integers and rationals; the per-record loop body becomes a pure
`step : State → Msg → State` function, and `parse_log` is its fold over the
record stream.  Python dictionaries that preserve insertion order
(`battery_by_pack`, the RCOU field dict) are modelled as ordered
association lists.
-/

set_option allowUnsafeReducibility true in
attribute [semireducible] Rat.add Rat.mul Rat.sub Rat.inv

/-- A Python numeric value: an `int` or a `float`.  Floats are modelled as
exact rationals (the claims under study do not depend on binary rounding). -/
inductive Value where
  | int (n : ℤ)
  | float (q : ℚ)
deriving DecidableEq

/-- Numeric content of a value, as used by Python arithmetic and `==`. -/
def Value.toQ : Value → ℚ
  | .int n => (n : ℚ)
  | .float q => q

/-- Floor of a rational, computed from the numerator and denominator. -/
def qfloor (q : ℚ) : ℤ := q.num.fdiv (q.den : ℤ)

/-- Python `int(x)`: the identity on ints, truncation toward zero on floats. -/
def Value.pyInt : Value → ℤ
  | .int n => n
  | .float q => if q < 0 then -(qfloor (-q)) else qfloor q

/-- Python string interpolation of a numeric value (`f"{x}"`).  Rational
printing stands in for float repr; the claims only rely on it for ints. -/
def Value.pyRepr : Value → String
  | .int n => toString n
  | .float q => toString q

/-- Python `x == n` between a value and an int literal (numeric equality). -/
def valEqInt (v : Value) (n : ℤ) : Bool := decide (v.toQ = (n : ℚ))

/-- Round half to even (Python `round`) to an integer. -/
def roundHalfEven (q : ℚ) : ℤ :=
  let f := qfloor q
  let r := q - (f : ℚ)
  if r < 1/2 then f
  else if 1/2 < r then f + 1
  else if f % 2 = 0 then f else f + 1

/-- Python `round(x, 2)`: round to two decimal places, half to even. -/
def round2 (q : ℚ) : ℚ := (roundHalfEven (q * 100) : ℚ) / 100

/-- Rendering of a timestamp into the message strings (`f"{t}"`).  Rational
printing stands in for float repr; no claim depends on its exact form. -/
def qRepr (q : ℚ) : String := toString q

/-- A raw log record: a type tag (`msg.get_type()`) and named numeric
attributes.  Absent attributes are simply missing from the list. -/
structure Msg where
  get_type : String
  attrs : List (String × Value)

/-- `getattr(msg, name, None)` returning `none` when the field is absent. -/
def getattrOpt (m : Msg) (name : String) : Option Value :=
  (m.attrs.find? (fun p => p.1 == name)).map (·.2)

/-- `getattr(msg, name, default)` with a numeric default. -/
def getattrD (m : Msg) (name : String) (d : Value) : Value :=
  (getattrOpt m name).getD d

/-- `ERR_SUBSYS_CODES` from `src/app.py`. -/
def ERR_SUBSYS_CODES : List (ℤ × String) :=
  [(0, "Main"), (1, "Radio"), (2, "Compass"), (3, "Optical Flow"),
   (4, "GPS"), (5, "Battery"), (6, "Flight Mode"), (8, "EKF")]

/-- `ERR_ERROR_CODES` from `src/app.py`. -/
def ERR_ERROR_CODES : List (ℤ × String) :=
  [(0, "Unspecified"), (1, "Inconsistent"), (2, "Missing"),
   (3, "Too Large"), (4, "Too Small"), (5, "Timeout")]

/-- `EV_ID_MAP` from `src/app.py`. -/
def EV_ID_MAP : List (ℤ × String) :=
  [(11, "Landing complete"), (15, "Arm"), (17, "Disarm"), (18, "Failsafe"),
   (28, "Flight mode change"), (56, "Auto mission started"),
   (57, "Auto mission complete"), (62, "EKF failsafe triggered")]

/-- Python `table.get(code, fallback)` on an int-keyed dict: keys compare
numerically against the (possibly float) code, as Python `dict` lookup does. -/
def dictGet (table : List (ℤ × String)) (code : Value) (fallback : String) : String :=
  ((table.find? (fun p => decide ((p.1 : ℚ) = code.toQ))).map (·.2)).getD fallback

/-- `ERR_SUBSYS_CODES.get(subsys, f"Unknown Subsys {subsys}")` (line 111). -/
def subsys_label (subsys : Value) : String :=
  dictGet ERR_SUBSYS_CODES subsys ("Unknown Subsys " ++ subsys.pyRepr)

/-- `ERR_ERROR_CODES.get(ecode, f"Unknown ECode {ecode}")` (line 112). -/
def ecode_label (ecode : Value) : String :=
  dictGet ERR_ERROR_CODES ecode ("Unknown ECode " ++ ecode.pyRepr)

/-- `EV_ID_MAP.get(eid, f"Unknown Event ID {eid}")` (line 117). -/
def event_label (eid : Value) : String :=
  dictGet EV_ID_MAP eid ("Unknown Event ID " ++ eid.pyRepr)

/-- `_safe_time_s` from `src/app.py` lines 60-71: prefer `TimeUS`
(microseconds, rounded to two decimals after division by `1e6`), fall back
to `TimeS` (seconds, converted to float unrounded), else no timestamp. -/
def _safe_time_s (m : Msg) : Option ℚ :=
  match getattrOpt m "TimeUS" with
  | some timeus => some (round2 (timeus.toQ / 1000000))
  | none =>
    match getattrOpt m "TimeS" with
    | some time_s => some time_s.toQ
    | none => none

/-- One row of `altitude_data` (line 125). -/
structure AltEntry where
  time : ℚ
  Alt_m : ℚ
deriving DecidableEq

/-- One row of `battery_by_pack` (lines 129-138): optional sensor fields
plus the original, uncoerced `SNum` value. -/
structure BatEntry where
  time : ℚ
  Volt : Option Value
  VoltR : Option Value
  Curr : Option Value
  CurrTot : Option Value
  Temp : Option Value
  RemPct : Option Value
  SNum : Value
deriving DecidableEq

/-- One row of `attitude_data` (lines 142-148). -/
structure AttEntry where
  time : ℚ
  DesRoll : Option Value
  Roll : Option Value
deriving DecidableEq

/-- One row of `esc_data` (line 151). -/
structure EscEntry where
  time : ℚ
  Temp : Option Value
deriving DecidableEq

/-- One row of `vibe_data` (lines 154-161). -/
structure VibeEntry where
  time : ℚ
  VibeX : Option Value
  VibeY : Option Value
  VibeZ : Option Value
deriving DecidableEq

/-- One row of `rc_data` (lines 164-172). -/
structure RcinEntry where
  time : ℚ
  C1 : Option Value
  C2 : Option Value
  C3 : Option Value
  C4 : Option Value
deriving DecidableEq

/-- One row of `rcout_data` (lines 176-178): the dict built by the
comprehension over channels 1..16, keys in insertion order, plus the time. -/
structure RcouEntry where
  time : ℚ
  cs : List (String × Option Value)
deriving DecidableEq

/-- The RCOU dict comprehension
`{f"C{i}": getattr(msg, f"C{i}", None) for i in range(1, 17)}` (line 176). -/
def rcouFields (m : Msg) : List (String × Option Value) :=
  (List.range' 1 16).map (fun i => ("C" ++ toString i, getattrOpt m ("C" ++ toString i)))

/-- The accumulators of `parse_log` (lines 82-91). -/
structure State where
  error_msgs : List String
  event_msgs : List String
  altitude_data : List AltEntry
  battery_by_pack : List (ℤ × List BatEntry)
  attitude_data : List AttEntry
  esc_data : List EscEntry
  vibe_data : List VibeEntry
  rc_data : List RcinEntry
  rcout_data : List RcouEntry
  mode_data : List (ℚ × String)
deriving DecidableEq

/-- The empty accumulators at the start of `parse_log`. -/
def initState : State :=
  { error_msgs := [], event_msgs := [], altitude_data := [],
    battery_by_pack := [], attitude_data := [], esc_data := [],
    vibe_data := [], rc_data := [], rcout_data := [], mode_data := [] }

/-- `battery_by_pack.setdefault(k, []).append(e)` (line 139) on an ordered
association list: append to the existing group for `k`, or lazily create a
new group at the end. -/
def setdefaultAppend (groups : List (ℤ × List BatEntry)) (k : ℤ) (e : BatEntry) :
    List (ℤ × List BatEntry) :=
  match groups with
  | [] => [(k, [e])]
  | (k', es) :: rest =>
    if k' = k then (k', es ++ [e]) :: rest
    else (k', es) :: setdefaultAppend rest k e

/-- The battery entry built at lines 129-138. -/
def batEntryOf (m : Msg) (t : ℚ) (pack : Value) : BatEntry :=
  { time := t, Volt := getattrOpt m "Volt", VoltR := getattrOpt m "VoltR",
    Curr := getattrOpt m "Curr", CurrTot := getattrOpt m "CurrTot",
    Temp := getattrOpt m "Temp", RemPct := getattrOpt m "RemPct", SNum := pack }

/-- One iteration of the `while True` loop of `parse_log` (lines 96-178):
skip the record when no timestamp resolves, otherwise dispatch on the type
tag and append to the matching accumulator.  The EV branch appends the
event string and then, when `Id == 28`, additionally the mode marker; here
the two record updates of that branch are written as one conditional. -/
def step (s : State) (msg : Msg) : State :=
  match _safe_time_s msg with
  | none => s
  | some t =>
    if msg.get_type = "ERR" then
      { s with error_msgs := s.error_msgs ++
          ["ERR at " ++ qRepr t ++ "s: " ++ subsys_label (getattrD msg "Subsys" (.int (-1)))
            ++ " - " ++ ecode_label (getattrD msg "ECode" (.int (-1)))] }
    else if msg.get_type = "EV" then
      if valEqInt (getattrD msg "Id" (.int (-1))) 28 then
        { s with
          event_msgs :=
            s.event_msgs ++
              ["EV at " ++ qRepr t ++ "s: " ++ event_label (getattrD msg "Id" (.int (-1)))],
          mode_data := s.mode_data ++ [(t, event_label (getattrD msg "Id" (.int (-1))))] }
      else
        { s with event_msgs := s.event_msgs ++
            ["EV at " ++ qRepr t ++ "s: " ++ event_label (getattrD msg "Id" (.int (-1)))] }
    else if msg.get_type = "GPS" then
      match getattrOpt msg "Alt" with
      | some alt_cm =>
        { s with altitude_data := s.altitude_data ++ [{ time := t, Alt_m := alt_cm.toQ / 100 }] }
      | none => s
    else if msg.get_type = "BAT" then
      { s with
          battery_by_pack :=
            setdefaultAppend s.battery_by_pack (getattrD msg "SNum" (.int 0)).pyInt
              (batEntryOf msg t (getattrD msg "SNum" (.int 0))) }
    else if msg.get_type = "ATT" then
      { s with attitude_data := s.attitude_data ++
          [{ time := t, DesRoll := getattrOpt msg "DesRoll", Roll := getattrOpt msg "Roll" }] }
    else if msg.get_type = "ESC" then
      { s with esc_data := s.esc_data ++ [{ time := t, Temp := getattrOpt msg "Temp" }] }
    else if msg.get_type = "VIBE" then
      { s with vibe_data := s.vibe_data ++
          [{ time := t, VibeX := getattrOpt msg "VibeX", VibeY := getattrOpt msg "VibeY",
             VibeZ := getattrOpt msg "VibeZ" }] }
    else if msg.get_type = "RCIN" then
      { s with rc_data := s.rc_data ++
          [{ time := t, C1 := getattrOpt msg "C1", C2 := getattrOpt msg "C2",
             C3 := getattrOpt msg "C3", C4 := getattrOpt msg "C4" }] }
    else if msg.get_type = "RCOU" then
      { s with rcout_data := s.rcout_data ++ [{ time := t, cs := rcouFields msg }] }
    else s

/-- `parse_log` over a stream of already-decoded records: fold the loop
body over the stream starting from empty accumulators. -/
def parse_log (msgs : List Msg) : State :=
  msgs.foldl step initState

/-- The structured result returned at lines 189-200.  DataFrame conversion
keeps rows and row order, so it is modelled as the identity on row lists. -/
structure EngineResult where
  errors : List String
  events : List String
  modes : List (ℚ × String)
  altitude_df : List AltEntry
  attitude_df : List AttEntry
  esc_df : List EscEntry
  vibe_df : List VibeEntry
  rc_df : List RcinEntry
  rcout_df : List RcouEntry
  battery_dfs : List (ℤ × List BatEntry)
deriving DecidableEq

/-- Result assembly (lines 180-200): package the accumulated state. -/
def finalize (s : State) : EngineResult :=
  { errors := s.error_msgs, events := s.event_msgs, modes := s.mode_data,
    altitude_df := s.altitude_data, attitude_df := s.attitude_data,
    esc_df := s.esc_data, vibe_df := s.vibe_data, rc_df := s.rc_data,
    rcout_df := s.rcout_data, battery_dfs := s.battery_by_pack }

/-- Concrete BAT record with integer `TimeS` `t` and integer `SNum` `p`. -/
def batMsg (t p : ℤ) : Msg := ⟨"BAT", [("TimeS", .int t), ("SNum", .int p)]⟩

/-- Concrete BAT record whose `SNum` is the float `1.0`. -/
def batMsgFloat1 : Msg := ⟨"BAT", [("TimeS", .int 2), ("SNum", .float 1)]⟩

/-- Concrete RCOU record carrying a timestamp and only channels 1 to 8. -/
def rcouMsg8 : Msg :=
  ⟨"RCOU", [("TimeUS", .int 1000000), ("C1", .int 1100), ("C2", .int 1200),
            ("C3", .int 1300), ("C4", .int 1400), ("C5", .int 1500),
            ("C6", .int 1600), ("C7", .int 1700), ("C8", .int 1800)]⟩

/-- Concrete ERR record carrying no timestamp field at all. -/
def errMsgNoTime : Msg := ⟨"ERR", [("Subsys", .int 4), ("ECode", .int 2)]⟩

/-- Concrete GPS record with `TimeS` 3 and `Alt` 1234 centimeters. -/
def gpsMsg1234 : Msg := ⟨"GPS", [("TimeS", .int 3), ("Alt", .int 1234)]⟩

/-- Concrete GPS record with a timestamp and no `Alt` field. -/
def gpsMsgNoAlt : Msg := ⟨"GPS", [("TimeS", .int 4)]⟩

/-- Concrete EV record with id 28 (flight mode change) at `TimeS` 7. -/
def evMsg28 : Msg := ⟨"EV", [("TimeS", .int 7), ("Id", .int 28)]⟩

/-- Concrete record with a tag the engine does not recognize. -/
def xkfMsg : Msg := ⟨"XKF1", [("TimeUS", .int 2000000), ("Roll", .int 5)]⟩

/-- Concrete record carrying both time fields with different values. -/
def bothTimesMsg : Msg := ⟨"ATT", [("TimeUS", .int 123456789), ("TimeS", .int 999)]⟩

/-- Concrete record carrying only the `TimeS` field. -/
def onlyTimeSMsg : Msg := ⟨"ATT", [("TimeS", .int 5)]⟩

/-- Grouping invariant of C1: every entry stored in a battery group carries
an `SNum` that coerces to that group's key. -/
def battInv (groups : List (ℤ × List BatEntry)) : Prop :=
  ∀ p ∈ groups, ∀ e ∈ p.2, e.SNum.pyInt = p.1

theorem setdefaultAppend_not_mem (groups : List (ℤ × List BatEntry)) (k : ℤ) (e : BatEntry)
    (h : k ∉ groups.map Prod.fst) :
    setdefaultAppend groups k e = groups ++ [(k, [e])] := by
  induction groups with
  | nil => rfl
  | cons p rest ih =>
    obtain ⟨k', es⟩ := p
    simp only [List.map_cons, List.mem_cons, not_or] at h
    obtain ⟨h1, h2⟩ := h
    unfold setdefaultAppend
    rw [if_neg (fun hk => h1 hk.symm)]
    rw [ih h2]
    rfl

theorem battInv_setdefaultAppend {groups : List (ℤ × List BatEntry)} {k : ℤ} {e : BatEntry}
    (h : battInv groups) (he : e.SNum.pyInt = k) :
    battInv (setdefaultAppend groups k e) := by
  induction groups with
  | nil =>
    intro p hp e' he'
    simp only [setdefaultAppend, List.mem_singleton] at hp
    subst hp
    simp only [List.mem_singleton] at he'
    subst he'
    exact he
  | cons q rest ih =>
    obtain ⟨k', es⟩ := q
    have hhead : ∀ e' ∈ es, e'.SNum.pyInt = k' := h (k', es) (List.mem_cons_self _ _)
    have htail : battInv rest := fun p hp => h p (List.mem_cons_of_mem _ hp)
    intro p hp e' he'
    unfold setdefaultAppend at hp
    by_cases hk : k' = k
    · rw [if_pos hk] at hp
      rcases List.mem_cons.mp hp with hp1 | hp2
      · subst hp1
        rcases List.mem_append.mp he' with h1 | h1
        · exact hhead e' h1
        · simp only [List.mem_singleton] at h1
          subst h1
          rw [he, hk]
      · exact htail p hp2 e' he'
    · rw [if_neg hk] at hp
      rcases List.mem_cons.mp hp with hp1 | hp2
      · subst hp1
        exact hhead e' he'
      · exact ih htail p hp2 e' he'

theorem battInv_step (s : State) (m : Msg) (h : battInv s.battery_by_pack) :
    battInv (step s m).battery_by_pack := by
  unfold step
  split
  · exact h
  · by_cases h1 : m.get_type = "ERR"
    · simp only [if_pos h1]; exact h
    rw [if_neg h1]
    by_cases h2 : m.get_type = "EV"
    · rw [if_pos h2]
      by_cases h28 : valEqInt (getattrD m "Id" (.int (-1))) 28 = true
      · rw [if_pos h28]; exact h
      · rw [if_neg h28]; exact h
    rw [if_neg h2]
    by_cases h3 : m.get_type = "GPS"
    · rw [if_pos h3]
      cases getattrOpt m "Alt" with
      | some a => exact h
      | none => exact h
    rw [if_neg h3]
    by_cases h4 : m.get_type = "BAT"
    · rw [if_pos h4]
      exact battInv_setdefaultAppend h rfl
    rw [if_neg h4]
    by_cases h5 : m.get_type = "ATT"
    · rw [if_pos h5]; exact h
    rw [if_neg h5]
    by_cases h6 : m.get_type = "ESC"
    · rw [if_pos h6]; exact h
    rw [if_neg h6]
    by_cases h7 : m.get_type = "VIBE"
    · rw [if_pos h7]; exact h
    rw [if_neg h7]
    by_cases h8 : m.get_type = "RCIN"
    · rw [if_pos h8]; exact h
    rw [if_neg h8]
    by_cases h9 : m.get_type = "RCOU"
    · rw [if_pos h9]; exact h
    rw [if_neg h9]
    exact h

theorem battInv_foldl (msgs : List Msg) (s : State) (h : battInv s.battery_by_pack) :
    battInv (List.foldl step s msgs).battery_by_pack := by
  induction msgs generalizing s with
  | nil => exact h
  | cons m rest ih => exact ih _ (battInv_step s m h)

/-- C1: battery samples are grouped by the value of the pack-identifier
field `SNum`, never by arrival order or parity: every entry stored under a
group key carries an `SNum` that coerces to that key (so two records with
different pack identifiers never land in the same sequence), a previously
unseen pack identifier lazily creates a new group, and the stream with
pack ids 0,1,0,1 yields exactly two groups of length 2 each, with each
group's samples in original arrival order. -/
theorem battery_pack_grouping :
    (∀ (msgs : List Msg) (k : ℤ) (es : List BatEntry),
        (k, es) ∈ (parse_log msgs).battery_by_pack → ∀ e ∈ es, e.SNum.pyInt = k)
    ∧ (∀ (groups : List (ℤ × List BatEntry)) (k : ℤ) (e : BatEntry),
        k ∉ groups.map Prod.fst → setdefaultAppend groups k e = groups ++ [(k, [e])])
    ∧ (parse_log [batMsg 1 0, batMsg 2 1, batMsg 3 0, batMsg 4 1]).battery_by_pack
        = [(0, [batEntryOf (batMsg 1 0) 1 (.int 0), batEntryOf (batMsg 3 0) 3 (.int 0)]),
           (1, [batEntryOf (batMsg 2 1) 2 (.int 1), batEntryOf (batMsg 4 1) 4 (.int 1)])] := by
  refine ⟨?_, setdefaultAppend_not_mem, by decide⟩
  intro msgs k es hmem e he
  have h0 : battInv initState.battery_by_pack := by
    intro p hp
    simp [initState] at hp
  exact battInv_foldl msgs initState h0 (k, es) hmem e he

/-- Witness for C1: the grouping invariant evaluated at the 0,1,0,1 stream
and the first entry of the group keyed 0. -/
theorem battery_pack_grouping_witness :
    (batEntryOf (batMsg 1 0) 1 (.int 0)).SNum.pyInt = 0 :=
  battery_pack_grouping.1 [batMsg 1 0, batMsg 2 1, batMsg 3 0, batMsg 4 1] 0
    [batEntryOf (batMsg 1 0) 1 (.int 0), batEntryOf (batMsg 3 0) 3 (.int 0)]
    (by decide) (batEntryOf (batMsg 1 0) 1 (.int 0)) (by decide)

/-- C3: a record lacking both the `TimeUS` and the `TimeS` field resolves
no timestamp, and the decoding step skips it entirely, leaving every
accumulator unchanged. -/
theorem missing_timestamp_skips (s : State) (m : Msg)
    (h1 : getattrOpt m "TimeUS" = none) (h2 : getattrOpt m "TimeS" = none) :
    _safe_time_s m = none ∧ step s m = s := by
  have ht : _safe_time_s m = none := by
    unfold _safe_time_s
    rw [h1, h2]
  refine ⟨ht, ?_⟩
  unfold step
  rw [ht]

/-- Witness for C3: an ERR record with no time field is skipped. -/
theorem missing_timestamp_skips_witness :
    _safe_time_s errMsgNoTime = none ∧ step initState errMsgNoTime = initState :=
  missing_timestamp_skips initState errMsgNoTime (by decide) (by decide)

/-- C7: a record whose tag is none of the recognized tags leaves the whole
state unchanged: no observation is emitted and no accumulator changes. -/
theorem unrecognized_tag_no_effect (s : State) (m : Msg)
    (h : m.get_type ∉ ["ERR", "EV", "GPS", "BAT", "ATT", "ESC", "VIBE", "RCIN", "RCOU"]) :
    step s m = s := by
  simp only [List.mem_cons, List.not_mem_nil, or_false, not_or] at h
  obtain ⟨h1, h2, h3, h4, h5, h6, h7, h8, h9⟩ := h
  unfold step
  split
  · rfl
  · simp [h1, h2, h3, h4, h5, h6, h7, h8, h9]

/-- Witness for C7: an XKF1 record (with a valid timestamp) is ignored. -/
theorem unrecognized_tag_no_effect_witness : step initState xkfMsg = initState :=
  unrecognized_tag_no_effect initState xkfMsg (by decide)

/-- C8: result assembly is idempotent: with no further ingestion (an empty
batch) after stream exhaustion, a second finalize returns a result equal to
the first snapshot. -/
theorem finalize_idempotent (msgs : List Msg) :
    List.foldl step (parse_log msgs) [] = parse_log msgs
    ∧ finalize (List.foldl step (parse_log msgs) []) = finalize (parse_log msgs) :=
  ⟨rfl, rfl⟩

/-- C9: when `TimeUS` is present the derived timestamp is `TimeUS / 1e6`
rounded to two decimal places, regardless of `TimeS`; `TimeS` is used,
converted to a number unrounded, only when `TimeUS` is absent. -/
theorem timeus_precedence (m : Msg) :
    (∀ v, getattrOpt m "TimeUS" = some v →
        _safe_time_s m = some (round2 (v.toQ / 1000000)))
    ∧ (getattrOpt m "TimeUS" = none →
        ∀ w, getattrOpt m "TimeS" = some w → _safe_time_s m = some w.toQ) := by
  constructor
  · intro v hv
    unfold _safe_time_s
    rw [hv]
  · intro hnone w hw
    unfold _safe_time_s
    rw [hnone, hw]

/-- Witness for C9: a record with both time fields uses the rounded
`TimeUS` (123.456789 s rounds to 123.46 s), ignoring `TimeS = 999`; a
record with only `TimeS` uses it unrounded. -/
theorem timeus_precedence_witness :
    _safe_time_s bothTimesMsg = some (round2 ((Value.int 123456789).toQ / 1000000))
    ∧ round2 ((Value.int 123456789).toQ / 1000000) = 6173/50
    ∧ _safe_time_s onlyTimeSMsg = some (Value.int 5).toQ :=
  ⟨(timeus_precedence bothTimesMsg).1 (.int 123456789) (by decide),
   by decide,
   (timeus_precedence onlyTimeSMsg).2 (by decide) (.int 5) (by decide)⟩

theorem dict_find_eq_none (table : List (ℤ × String)) (n : ℤ)
    (h : n ∉ table.map Prod.fst) :
    table.find? (fun p => decide ((p.1 : ℚ) = ((n : ℤ) : ℚ))) = none := by
  rw [List.find?_eq_none]
  intro p hp
  simp only [decide_eq_true_eq]
  intro hq
  apply h
  have hpn : p.1 = n := by exact_mod_cast hq
  exact hpn ▸ List.mem_map_of_mem Prod.fst hp

/-- C4: any integer subsystem, error, or event code absent from the
corresponding lookup table (the -1 used as default for absent fields
included) resolves, without failing, to a synthesized label embedding the
category name and the literal numeric code. -/
theorem unknown_code_fallback_labels (n : ℤ)
    (hs : n ∉ ERR_SUBSYS_CODES.map Prod.fst)
    (he : n ∉ ERR_ERROR_CODES.map Prod.fst)
    (hv : n ∉ EV_ID_MAP.map Prod.fst) :
    subsys_label (.int n) = "Unknown Subsys " ++ toString n
    ∧ ecode_label (.int n) = "Unknown ECode " ++ toString n
    ∧ event_label (.int n) = "Unknown Event ID " ++ toString n
    ∧ subsys_label (.int (-1)) = "Unknown Subsys -1"
    ∧ ecode_label (.int (-1)) = "Unknown ECode -1"
    ∧ event_label (.int (-1)) = "Unknown Event ID -1" := by
  refine ⟨?_, ?_, ?_, by decide, by decide, by decide⟩
  · unfold subsys_label dictGet
    simp only [Value.toQ]
    rw [dict_find_eq_none _ _ hs]
    rfl
  · unfold ecode_label dictGet
    simp only [Value.toQ]
    rw [dict_find_eq_none _ _ he]
    rfl
  · unfold event_label dictGet
    simp only [Value.toQ]
    rw [dict_find_eq_none _ _ hv]
    rfl

/-- Witness for C4 at the unknown code 99. -/
theorem unknown_code_fallback_labels_witness :
    subsys_label (.int 99) = "Unknown Subsys " ++ toString (99 : ℤ)
    ∧ ecode_label (.int 99) = "Unknown ECode " ++ toString (99 : ℤ)
    ∧ event_label (.int 99) = "Unknown Event ID " ++ toString (99 : ℤ) := by
  have h := unknown_code_fallback_labels 99 (by decide) (by decide) (by decide)
  exact ⟨h.1, h.2.1, h.2.2.1⟩

/-- C5: a GPS record with a usable timestamp and an `Alt` field (in
centimeters) appends exactly one altitude sample whose value is the field
divided by 100 (meters); without the `Alt` field nothing at all is
appended. -/
theorem gps_altitude_conversion (s : State) (m : Msg) (t : ℚ)
    (htag : m.get_type = "GPS") (ht : _safe_time_s m = some t) :
    (∀ alt_cm, getattrOpt m "Alt" = some alt_cm →
        step s m = { s with altitude_data :=
          s.altitude_data ++ [{ time := t, Alt_m := alt_cm.toQ / 100 }] })
    ∧ (getattrOpt m "Alt" = none → step s m = s) := by
  constructor
  · intro alt_cm halt
    unfold step
    rw [ht, htag, halt]
    simp
  · intro halt
    unfold step
    rw [ht, htag, halt]
    simp

/-- Witness for C5: `Alt = 1234` yields one sample of `12.34` meters; a GPS
record without `Alt` appends nothing. -/
theorem gps_altitude_conversion_witness :
    step initState gpsMsg1234
      = { initState with altitude_data :=
            initState.altitude_data ++ [{ time := 3, Alt_m := (Value.int 1234).toQ / 100 }] }
    ∧ (Value.int 1234).toQ / 100 = 1234 / 100
    ∧ step initState gpsMsgNoAlt = initState :=
  ⟨(gps_altitude_conversion initState gpsMsg1234 3 (by decide) (by decide)).1 (.int 1234) (by decide),
   by decide,
   (gps_altitude_conversion initState gpsMsgNoAlt 4 (by decide) (by decide)).2 (by decide)⟩

/-- C10: a BAT record is grouped under the key `int(SNum)` — the pack
identifier coerced with Python `int()` — while the stored entry keeps the
original uncoerced `SNum`; records whose `SNum` values `1` and `1.0`
differ in type but coerce to the same integer merge into one group. -/
theorem battery_key_int_coercion (s : State) (m : Msg) (t : ℚ) (pack : Value)
    (htag : m.get_type = "BAT") (ht : _safe_time_s m = some t)
    (hp : getattrD m "SNum" (.int 0) = pack) :
    ((step s m).battery_by_pack
        = setdefaultAppend s.battery_by_pack pack.pyInt (batEntryOf m t pack)
      ∧ (batEntryOf m t pack).SNum = pack)
    ∧ (parse_log [batMsg 1 1, batMsgFloat1]).battery_by_pack
        = [(1, [batEntryOf (batMsg 1 1) 1 (.int 1), batEntryOf batMsgFloat1 2 (.float 1)])] := by
  refine ⟨⟨?_, rfl⟩, by decide⟩
  unfold step
  rw [ht, htag, hp]
  simp

/-- Witness for C10 at a concrete BAT record with `SNum = 1`. -/
theorem battery_key_int_coercion_witness :
    (step initState (batMsg 1 1)).battery_by_pack
        = setdefaultAppend initState.battery_by_pack (Value.int 1).pyInt
            (batEntryOf (batMsg 1 1) 1 (.int 1))
    ∧ (batEntryOf (batMsg 1 1) 1 (.int 1)).SNum = .int 1 :=
  (battery_key_int_coercion initState (batMsg 1 1) 1 (.int 1)
    (by decide) (by decide) (by decide)).1

theorem unknown_event_ne_flight (r : String) :
    "Unknown Event ID " ++ r ≠ "Flight mode change" := by
  intro h
  have h2 : ("Unknown Event ID " ++ r).data = "Flight mode change".data :=
    congrArg String.data h
  rw [String.data_append] at h2
  have h3 : ('U' : Char) = 'F' := congrArg (fun l => l.headD ' ') h2
  exact absurd h3 (by decide)

theorem valEq28_iff_flight_label (v : Value) :
    valEqInt v 28 = true ↔ event_label v = "Flight mode change" := by
  constructor
  · intro h
    have hq : v.toQ = 28 := of_decide_eq_true h
    have hfind : EV_ID_MAP.find? (fun p => decide ((p.1 : ℚ) = v.toQ))
        = some (28, "Flight mode change") := by
      rw [hq]
      decide
    unfold event_label dictGet
    rw [hfind]
    rfl
  · intro h
    by_contra hne
    have hq : ¬ v.toQ = 28 := fun hh => hne (decide_eq_true hh)
    unfold event_label dictGet at h
    cases hfind : EV_ID_MAP.find? (fun p => decide ((p.1 : ℚ) = v.toQ)) with
    | none =>
      rw [hfind] at h
      simp only [Option.map_none', Option.getD_none] at h
      exact unknown_event_ne_flight v.pyRepr h
    | some pr =>
      rw [hfind] at h
      simp only [Option.map_some', Option.getD_some] at h
      have hp := List.find?_some hfind
      have hmem := List.mem_of_find?_eq_some hfind
      have hpq : (pr.1 : ℚ) = v.toQ := of_decide_eq_true hp
      unfold EV_ID_MAP at hmem
      fin_cases hmem <;>
        first
          | exact absurd h (by decide)
          | exact hq (by exact_mod_cast hpq.symm)

/-- C6: an EV record with a usable timestamp appends exactly one decoded
event using the event id (default -1 when absent) resolved through
`EV_ID_MAP`, and a mode marker with the same time and label is appended to
the mode timeline if and only if the id resolves to the distinguished
"Flight mode change" kind, which happens exactly for event id 28. -/
theorem ev_event_and_mode_marker (s : State) (m : Msg) (t : ℚ)
    (htag : m.get_type = "EV") (ht : _safe_time_s m = some t) :
    (step s m).event_msgs = s.event_msgs ++
        ["EV at " ++ qRepr t ++ "s: " ++ event_label (getattrD m "Id" (.int (-1)))]
    ∧ (step s m).mode_data = s.mode_data ++
        (if valEqInt (getattrD m "Id" (.int (-1))) 28 then
          [(t, event_label (getattrD m "Id" (.int (-1))))] else [])
    ∧ (valEqInt (getattrD m "Id" (.int (-1))) 28 = true
        ↔ event_label (getattrD m "Id" (.int (-1))) = "Flight mode change") := by
  refine ⟨?_, ?_, valEq28_iff_flight_label _⟩
  · unfold step
    rw [ht, htag]
    by_cases h28 : valEqInt (getattrD m "Id" (.int (-1))) 28 = true
    · simp [h28]
    · simp [h28]
  · unfold step
    rw [ht, htag]
    by_cases h28 : valEqInt (getattrD m "Id" (.int (-1))) 28 = true
    · simp [h28]
    · simp [h28]

/-- Witness for C6: the EV record with id 28 at time 7 appends one decoded
event and one mode marker with the same label. -/
theorem ev_event_and_mode_marker_witness :
    (step initState evMsg28).event_msgs = initState.event_msgs ++
        ["EV at " ++ qRepr 7 ++ "s: " ++ event_label (getattrD evMsg28 "Id" (.int (-1)))]
    ∧ (step initState evMsg28).mode_data = initState.mode_data ++
        (if valEqInt (getattrD evMsg28 "Id" (.int (-1))) 28 then
          [(7, event_label (getattrD evMsg28 "Id" (.int (-1))))] else [])
    ∧ (valEqInt (getattrD evMsg28 "Id" (.int (-1))) 28 = true
        ↔ event_label (getattrD evMsg28 "Id" (.int (-1))) = "Flight mode change") :=
  ev_event_and_mode_marker initState evMsg28 7 (by decide) (by decide)

/-- Counterexample to C2 as stated: the RCOU record `rcouMsg8` carries only
channels 1 through 8, yet its emitted sample's key list is all sixteen
channel names, and the pair ("C9", null) is present for the absent
channel 9 — not only the present keys, and null entries do appear. -/
theorem rcou_null_channels_counterexample :
    (step initState rcouMsg8).rcout_data.map (fun e => e.cs.map Prod.fst)
      = [["C1", "C2", "C3", "C4", "C5", "C6", "C7", "C8", "C9", "C10",
          "C11", "C12", "C13", "C14", "C15", "C16"]]
    ∧ ("C9", (none : Option Value)) ∈ ((step initState rcouMsg8).rcout_data.headD ⟨0, []⟩).cs := by
  decide

/-- C2 (amended): an RCOU record with a usable timestamp appends exactly
one sample that always carries all sixteen channel keys C1..C16 in order,
each mapped to the record's field value when present and to null when the
channel is absent. -/
theorem rcou_sample_has_all_sixteen_channels (s : State) (m : Msg) (t : ℚ)
    (htag : m.get_type = "RCOU") (ht : _safe_time_s m = some t) :
    (step s m).rcout_data = s.rcout_data ++ [{ time := t, cs := rcouFields m }]
    ∧ (rcouFields m).map Prod.fst
        = ["C1", "C2", "C3", "C4", "C5", "C6", "C7", "C8", "C9", "C10",
           "C11", "C12", "C13", "C14", "C15", "C16"]
    ∧ ∀ i : ℕ, 1 ≤ i → i ≤ 16 →
        ("C" ++ toString i, getattrOpt m ("C" ++ toString i)) ∈ rcouFields m := by
  refine ⟨?_, ?_, ?_⟩
  · unfold step
    rw [ht, htag]
    simp
  · unfold rcouFields
    rw [List.map_map]
    show (List.range' 1 16).map (fun i => "C" ++ toString i) = _
    decide
  · intro i h1 h2
    have hmem : i ∈ List.range' 1 16 := by
      rw [List.mem_range']
      exact ⟨i - 1, by omega, by omega⟩
    exact List.mem_map_of_mem _ hmem

/-- Witness for C2 (amended) at the record carrying only channels 1-8. -/
theorem rcou_sample_has_all_sixteen_channels_witness :
    (step initState rcouMsg8).rcout_data
      = initState.rcout_data ++ [{ time := 1, cs := rcouFields rcouMsg8 }] :=
  (rcou_sample_has_all_sixteen_channels initState rcouMsg8 1 (by decide) (by decide)).1
